import Mathlib

/-!
Shallow embedding of the Bigben controller driver's translation layer and
device I/O channel (BigbenControllerDriver sources), for checking the
specification's claims.

Pure translation functions come from `InputTranslator.cpp`; the polling
state machine comes from `BigbenUSBDriver.cpp`; the rumble frame builder
comes from `BigbenHIDDevice.cpp` and `BigbenProtocol.h`.
-/

set_option maxRecDepth 16384

namespace Bigben

/-- Constant `INPUT_TRANSLATOR_AXIS_CENTER` in `InputTranslator.h`. -/
def AXIS_CENTER : Int := 128

/-- Constants `INPUT_TRANSLATOR_HAT_NEUTRAL` and `BIGBEN_DPAD_NEUTRAL` (both 8). -/
def HAT_NEUTRAL : Nat := 8

/-- Constant `BIGBEN_REPORT_ID_INPUT` from `BigbenProtocol.h`. -/
def REPORT_ID_INPUT : Nat := 0x01

/-- Constant `BIGBEN_INPUT_REPORT_SIZE`, also `sizeof(BigbenInputReport)`: 64 bytes. -/
def INPUT_REPORT_SIZE : Nat := 64

/-- Function `InputTranslator::translateButtons` (InputTranslator.cpp:87-111):
`return bigbenButtons & 0x1FFF`. The argument is a `uint16_t`; we model it
as a natural number reduced mod 2^16 at the call boundary. -/
def translateButtons (bigbenButtons : Nat) : Nat :=
  (bigbenButtons % 65536) &&& 0x1FFF

/-- Function `InputTranslator::translateDPadToHat` (InputTranslator.cpp:117-140):
values above `BIGBEN_DPAD_NEUTRAL` (8) become the neutral constant 8,
otherwise passed through. The argument is a `uint8_t`. -/
def translateDPadToHat (dpad : Nat) : Nat :=
  if dpad % 256 > 8 then HAT_NEUTRAL else dpad % 256

/-- Function `InputTranslator::applyDeadzone` (InputTranslator.cpp:146-187).
`value` and `deadzone` are `uint8_t`; the intermediate arithmetic is
`int16_t`, which never overflows here, so plain `Int` with C's
truncating division (`Int.div`) is an exact model. -/
def applyDeadzone (value deadzone : Nat) : Nat :=
  let v : Int := (value % 256 : Nat)
  let dz : Int := (deadzone % 256 : Nat)
  let offset : Int := v - AXIS_CENTER
  if offset > -dz ∧ offset < dz then
    128
  else
    let offset :=
      if dz > 0 ∧ dz < 128 then
        let maxRange : Int := 127
        let activeRange : Int := maxRange - dz
        if activeRange > 0 then
          if offset > 0 then
            Int.tdiv ((offset - dz) * maxRange) activeRange
          else
            Int.tdiv ((offset + dz) * maxRange) activeRange
        else offset
      else offset
    let result : Int := offset + AXIS_CENTER
    if result < 0 then 0
    else if result > 255 then 255
    else result.toNat

/-- Function `InputTranslator::applyTriggerDeadzone` (InputTranslator.cpp:189-208).
Both arguments are `uint8_t`; the intermediate scaling uses `uint16_t`,
which never overflows, so `Nat` arithmetic is exact. -/
def applyTriggerDeadzone (value deadzone : Nat) : Nat :=
  let v := value % 256
  let dz := deadzone % 256
  if v < dz then
    0
  else if dz > 0 ∧ dz < 255 then
    let activeRange := 255 - dz
    let adjusted := v - dz
    let scaled := adjusted * 255 / activeRange
    if scaled > 255 then 255 else scaled
  else
    v

/-- The tracked driver state: the observable fields of
`BigbenUSBDriver_IVars` (BigbenUSBDriver.cpp:237-265).  The last report
cache is kept as the raw 64 copied bytes (`memcpy` of the whole struct). -/
structure DriverState where
  isStarted : Bool
  isPolling : Bool
  deviceConnected : Bool
  lastReport : List Nat
  hasLastReport : Bool
  reportsReceived : Nat
  reportErrors : Nat
  outputReportsSent : Nat
  deriving Repr, DecidableEq

/-- State after `init()` (BigbenUSBDriver.cpp:271-306): everything cleared. -/
def initState : DriverState :=
  { isStarted := false, isPolling := false, deviceConnected := false,
    lastReport := [], hasLastReport := false,
    reportsReceived := 0, reportErrors := 0, outputReportsSent := 0 }

/-- State right after a successful `Start()` (BigbenUSBDriver.cpp:321-408):
`StartInputPolling` has set `isPolling`, then `isStarted` and
`deviceConnected` are set to true. -/
def startedState : DriverState :=
  { initState with isStarted := true, isPolling := true, deviceConnected := true }

/-- Read-completion status codes distinguished by `ReadComplete`
(BigbenUSBDriver.cpp:658-723): `kIOReturnAborted`, `kIOReturnNotResponding`,
`kIOReturnSuccess`, and any other error code. -/
inductive ReadStatus where
  | success
  | aborted
  | notResponding
  | otherError
  deriving Repr, DecidableEq

/-- Function `BigbenUSBDriver::ParseInputReport` (BigbenUSBDriver.cpp:725-754):
drops undersized payloads and mismatched report ids; otherwise copies the
first 64 bytes into the last-report cache. -/
def ParseInputReport (st : DriverState) (data : List Nat) (length : Nat) :
    DriverState :=
  if length < INPUT_REPORT_SIZE then
    st
  else if data.headD 0 ≠ REPORT_ID_INPUT then
    st
  else
    { st with lastReport := data.take INPUT_REPORT_SIZE, hasLastReport := true }

/-- The re-arm step shared by `ReadComplete`'s error and success paths
(BigbenUSBDriver.cpp:671-682 and 711-722): `AsyncIO` is attempted only when
`isPolling && deviceConnected`; on failure `isPolling` is cleared.
`rearmOk` is the transport's return status for `AsyncIO`; the returned
`Bool` says whether a new read is now outstanding. -/
def rearmIfPolling (st : DriverState) (rearmOk : Bool) : DriverState × Bool :=
  if st.isPolling ∧ st.deviceConnected then
    if rearmOk then (st, true)
    else ({ st with isPolling := false }, false)
  else
    (st, false)

/-- Result of one `ReadComplete` invocation: the new state, whether a new
read was armed (a successful `AsyncIO` call), and whether `handleReport`
was invoked (delivery to the host-report sink). -/
structure ReadCompleteResult where
  state : DriverState
  armedRead : Bool
  delivered : Bool
  deriving Repr, DecidableEq

/-- Function `BigbenUSBDriver::ReadComplete` (BigbenUSBDriver.cpp:658-723).
`data` is the mapped contents of the input buffer, `actualByteCount` the
completion length, `mapOk` whether `inputBuffer->Map` succeeded with a
nonnull address, `rearmOk` the transport's status for a re-arm attempt. -/
def ReadComplete (st : DriverState) (status : ReadStatus) (data : List Nat)
    (actualByteCount : Nat) (mapOk rearmOk : Bool) : ReadCompleteResult :=
  match status with
  | .aborted => ⟨st, false, false⟩
  | .notResponding => ⟨st, false, false⟩
  | .otherError =>
      let st1 := { st with reportErrors := st.reportErrors + 1 }
      let p := rearmIfPolling st1 rearmOk
      ⟨p.1, p.2, false⟩
  | .success =>
      let q : DriverState × Bool :=
        if actualByteCount < INPUT_REPORT_SIZE then
          ({ st with reportErrors := st.reportErrors + 1 }, false)
        else if mapOk then
          let st1 := ParseInputReport st data actualByteCount
          ({ st1 with reportsReceived := st1.reportsReceived + 1 }, true)
        else
          (st, false)
      let p := rearmIfPolling q.1 rearmOk
      ⟨p.1, p.2, q.2⟩

/-- Function `BigbenUSBDriver::StopInputPolling` (BigbenUSBDriver.cpp:640-656):
no-op unless polling; otherwise clears `isPolling` and aborts the pending
read.  The returned `Bool` records whether `Abort` was issued. -/
def StopInputPolling (st : DriverState) : DriverState × Bool :=
  if st.isPolling then
    ({ st with isPolling := false }, true)
  else
    (st, false)

/-- Struct `BigbenRumbleReport` (BigbenProtocol.h:112-119): the fixed 8-byte
rumble wire frame.  Per the header's comments, `rightMotorOn` is the weak
motor's on/off flag and `leftMotorForce` the strong motor's intensity. -/
structure BigbenRumbleReport where
  reportId : Nat
  reserved1 : Nat
  rightMotorOn : Nat
  leftMotorForce : Nat
  duration : Nat
  padding : List Nat
  deriving Repr, DecidableEq

/-- The frame built by `BigbenHIDDevice::sendRumbleToUSB`
(BigbenHIDDevice.cpp:529-557).  Arguments are the `uint8_t` parameters
`leftMotor` (strong intensity) and `rightMotor` (weak intensity). -/
def buildRumbleReport (leftMotor rightMotor : Nat) : BigbenRumbleReport :=
  { reportId := 0x02
    reserved1 := 0x08
    rightMotorOn := if rightMotor % 256 > 0 then 1 else 0
    leftMotorForce := leftMotor % 256
    duration := 0xFF
    padding := [0, 0, 0] }

/-- The 8 wire bytes of a rumble frame, in struct order. -/
def rumbleBytes (r : BigbenRumbleReport) : List Nat :=
  [r.reportId, r.reserved1, r.rightMotorOn, r.leftMotorForce, r.duration]
    ++ r.padding

/-- State after the driver's `Stop()` (BigbenUSBDriver.cpp:410-431): flags
cleared and then `StopInputPolling` run. -/
def stoppedState : DriverState :=
  (StopInputPolling
    { startedState with isStarted := false, deviceConnected := false }).1

/-- A 64-byte payload whose report id byte (2) differs from
`BIGBEN_REPORT_ID_INPUT` (1). -/
def mismatchedReport : List Nat := List.replicate 64 2

/-- A 64-byte payload with the correct report id byte (1). -/
def matchingReport : List Nat := 1 :: List.replicate 63 0

end Bigben

namespace Bigben

/-- The parse step `ParseInputReport` touches only the last-report cache: every other
field of the driver state is preserved. -/
theorem ParseInputReport_preserves (st : DriverState) (data : List Nat)
    (n : Nat) :
    (ParseInputReport st data n).isPolling = st.isPolling ∧
    (ParseInputReport st data n).deviceConnected = st.deviceConnected ∧
    (ParseInputReport st data n).reportsReceived = st.reportsReceived ∧
    (ParseInputReport st data n).reportErrors = st.reportErrors := by
  unfold ParseInputReport
  split_ifs <;> simp

/-- If the channel is not polling, the re-arm step does nothing. -/
theorem rearmIfPolling_not_polling (st : DriverState) (rearmOk : Bool)
    (h : st.isPolling = false) :
    rearmIfPolling st rearmOk = (st, false) := by
  unfold rearmIfPolling
  simp [h]

/-- If the channel is polling and connected and the transport accepts the
read, the re-arm step arms a new read and leaves the state unchanged. -/
theorem rearmIfPolling_ok (st : DriverState)
    (h1 : st.isPolling = true) (h2 : st.deviceConnected = true) :
    rearmIfPolling st true = (st, true) := by
  unfold rearmIfPolling
  simp [h1, h2]

/-- The stick shaping `applyDeadzone` maps the physical extremes to themselves for every
in-range deadzone, checked exhaustively. -/
theorem applyDeadzone_extremes_all :
    ∀ dz : Fin 128, applyDeadzone 255 dz.val = 255 ∧
      applyDeadzone 0 dz.val = 0 := by decide

/-- The trigger shaping `applyTriggerDeadzone` with deadzone 255, checked exhaustively over
all byte inputs. -/
theorem applyTriggerDeadzone_full_all :
    ∀ v : Fin 256, (v.val < 255 → applyTriggerDeadzone v.val 255 = 0) ∧
      applyTriggerDeadzone 255 255 = 255 := by decide

/-- C3 counterexample: with stick deadzone 10 and input 200,
`applyDeadzone` returns the spec's own formula value
`((200-128-10)*127/117)+128`, but that value is 195, not the 197 the
claim asserts. -/
theorem C3_counterexample :
    applyDeadzone 200 10 = (200 - 128 - 10) * 127 / 117 + 128 ∧
    ¬ applyDeadzone 200 10 = 197 := by decide

/-- C3 (amended): with stick deadzone 10 and input 200, `applyDeadzone`
returns a value strictly greater than 128 and at most 255, equal to
`((200-128-10)*127/117)+128` under integer division, i.e. exactly 195. -/
theorem C3_deadzone10_input200 :
    applyDeadzone 200 10 = (200 - 128 - 10) * 127 / 117 + 128 ∧
    applyDeadzone 200 10 = 195 ∧
    128 < applyDeadzone 200 10 ∧
    applyDeadzone 200 10 ≤ 255 := by decide

/-- C7: for every stick deadzone `dz ≤ 127`, the physical extremes are
preserved: `applyDeadzone 255 dz = 255` and `applyDeadzone 0 dz = 0`. -/
theorem C7_stick_extremes (dz : Nat) (hdz : dz ≤ 127) :
    applyDeadzone 255 dz = 255 ∧ applyDeadzone 0 dz = 0 :=
  applyDeadzone_extremes_all ⟨dz, Nat.lt_succ_of_le hdz⟩

/-- Witness for C7 at `dz = 12`. -/
theorem C7_stick_extremes_witness :
    12 ≤ 127 ∧ (applyDeadzone 255 12 = 255 ∧ applyDeadzone 0 12 = 0) :=
  ⟨by decide, C7_stick_extremes 12 (by decide)⟩

/-- C8: for every 16-bit button value `b`, `translateButtons b` equals
`b &&& 0x1FFF`: the low 13 bits pass through unchanged, bits 13 and above
are cleared, and `translateButtons 0xFFFF = 0x1FFF`. -/
theorem C8_translateButtons_mask (b : Nat) (hb : b < 65536) :
    translateButtons b = b &&& 0x1FFF ∧
    (∀ i, i < 13 → (translateButtons b).testBit i = b.testBit i) ∧
    (∀ i, 13 ≤ i → (translateButtons b).testBit i = false) ∧
    translateButtons 0xFFFF = 0x1FFF := by
  have hmod : b % 65536 = b := Nat.mod_eq_of_lt hb
  have hdef : translateButtons b = b &&& 0x1FFF := by
    unfold translateButtons
    rw [hmod]
  have hkey : translateButtons b = b % 2 ^ 13 := by
    rw [hdef, (by norm_num : (0x1FFF : Nat) = 2 ^ 13 - 1),
      Nat.and_pow_two_sub_one_eq_mod]
  refine ⟨hdef, ?_, ?_, by decide⟩
  · intro i hi
    rw [hkey, Nat.testBit_mod_two_pow]
    simp [hi]
  · intro i hi
    rw [hkey, Nat.testBit_mod_two_pow]
    simp [Nat.not_lt.mpr hi]

/-- Witness for C8 at `b = 0xABCD`. -/
theorem C8_translateButtons_witness :
    (0xABCD : Nat) < 65536 ∧ translateButtons 0xABCD = 0xABCD &&& 0x1FFF :=
  ⟨by decide, (C8_translateButtons_mask 0xABCD (by decide)).1⟩

/-- C9: for every 8-bit direction code `d`, D-pad-to-hat translation is
the identity for `d ≤ 8` and returns the neutral constant 8 for `d > 8`. -/
theorem C9_translateDirection (d : Nat) (hd : d < 256) :
    (d ≤ 8 → translateDPadToHat d = d) ∧
    (8 < d → translateDPadToHat d = 8) := by
  have hmod : d % 256 = d := Nat.mod_eq_of_lt hd
  constructor
  · intro h8
    unfold translateDPadToHat
    rw [hmod, if_neg (by omega)]
  · intro h8
    unfold translateDPadToHat
    rw [hmod, if_pos (by omega)]
    rfl

/-- Witness for C9 at `d = 3` (identity) and `d = 9` (neutral). -/
theorem C9_translateDirection_witness :
    ((3 : Nat) < 256 ∧ translateDPadToHat 3 = 3) ∧
    ((9 : Nat) < 256 ∧ translateDPadToHat 9 = 8) :=
  ⟨⟨by decide, (C9_translateDirection 3 (by decide)).1 (by decide)⟩,
   ⟨by decide, (C9_translateDirection 9 (by decide)).2 (by decide)⟩⟩

/-- C10: with trigger deadzone 255, every byte value below 255 maps to 0
and 255 itself passes through unchanged (the `1..254` rescale branch is
not taken). -/
theorem C10_trigger_full_deadzone (v : Nat) (hv : v < 256) :
    (v < 255 → applyTriggerDeadzone v 255 = 0) ∧
    applyTriggerDeadzone 255 255 = 255 :=
  applyTriggerDeadzone_full_all ⟨v, hv⟩

/-- Witness for C10 at `v = 100`. -/
theorem C10_trigger_full_deadzone_witness :
    (100 : Nat) < 256 ∧ applyTriggerDeadzone 100 255 = 0 :=
  ⟨by decide, (C10_trigger_full_deadzone 100 (by decide)).1 (by decide)⟩

/-- C6: the rumble frame built from strong intensity `s` and weak
intensity `w` is `[0x02, 0x08, weakFlag, s, 0xFF, 0, 0, 0]` where the
weak-motor flag is 1 exactly when `w` is nonzero. -/
theorem C6_rumble_frame (s w : Nat) (hs : s < 256) (hw : w < 256) :
    rumbleBytes (buildRumbleReport s w) =
      [0x02, 0x08, if w = 0 then 0 else 1, s, 0xFF, 0, 0, 0] := by
  unfold rumbleBytes buildRumbleReport
  simp only [Nat.mod_eq_of_lt hs, Nat.mod_eq_of_lt hw]
  rcases Nat.eq_zero_or_pos w with h | h
  · subst h
    simp
  · simp [h, Nat.pos_iff_ne_zero.mp h]

/-- Witness for C6 at strong 200, weak 5. -/
theorem C6_rumble_frame_witness :
    (200 : Nat) < 256 ∧ (5 : Nat) < 256 ∧
    rumbleBytes (buildRumbleReport 200 5) =
      [0x02, 0x08, if (5 : Nat) = 0 then 0 else 1, 200, 0xFF, 0, 0, 0] :=
  ⟨by decide, by decide, C6_rumble_frame 200 5 (by decide) (by decide)⟩

/-- C1 counterexample: in the state right after a successful `Start()`, a
read completion with status aborted leaves `isPolling` and
`deviceConnected` both true — the channel does not transition to Stopped
and the connected flag does not become disconnected, contrary to the
claim. -/
theorem C1_counterexample :
    ¬ ((ReadComplete startedState .aborted [] 0 true true).state.isPolling
         = false ∧
       (ReadComplete startedState .aborted [] 0 true
         true).state.deviceConnected = false) := by
  decide

/-- C1 (amended): a read completion with status aborted or
device-not-responding arms no further read and delivers nothing, but it
leaves the whole channel state unchanged — `isPolling` and the connected
flag keep their prior values; the Stopped/disconnected transition is
performed only by `Stop()`, never by the completion handler. -/
theorem C1_abort_path (st : DriverState) (status : ReadStatus)
    (data : List Nat) (n : Nat) (mapOk rearmOk : Bool)
    (hs : status = ReadStatus.aborted ∨ status = ReadStatus.notResponding) :
    ReadComplete st status data n mapOk rearmOk =
      { state := st, armedRead := false, delivered := false } := by
  rcases hs with h | h <;> subst h <;> rfl

/-- Witness for C1 (amended) at the post-`Start()` state with an aborted
completion. -/
theorem C1_abort_path_witness :
    (ReadStatus.aborted = ReadStatus.aborted ∨
      ReadStatus.aborted = ReadStatus.notResponding) ∧
    ReadComplete startedState .aborted [] 0 true true =
      { state := startedState, armedRead := false, delivered := false } :=
  ⟨Or.inl rfl,
   C1_abort_path startedState .aborted [] 0 true true (Or.inl rfl)⟩

/-- C2 counterexample: a success completion of full length whose payload
has report id 2 (≠ 0x01) still increments `reportsReceived` and still
reaches `handleReport` — the mismatched-id report is not dropped from the
counter or the sink. -/
theorem C2_counterexample :
    ¬ ((ReadComplete startedState .success mismatchedReport 64 true
          true).state.reportsReceived = startedState.reportsReceived ∧
       (ReadComplete startedState .success mismatchedReport 64 true
          true).delivered = false) := by
  decide

/-- C2 (amended): for a success completion of length at least 64 with a
successful buffer map, the received counter is incremented and the raw
report is delivered to the host-report sink regardless of the report id;
the id check only gates the last-report cache: a mismatched id leaves the
cache untouched, a matching id stores the first 64 payload bytes. -/
theorem C2_mismatched_id (st : DriverState) (data : List Nat) (n : Nat)
    (rearmOk : Bool) (hn : 64 ≤ n) :
    (ReadComplete st .success data n true rearmOk).state.reportsReceived
        = st.reportsReceived + 1 ∧
    (ReadComplete st .success data n true rearmOk).delivered = true ∧
    (data.headD 0 ≠ 1 →
      (ReadComplete st .success data n true rearmOk).state.lastReport
          = st.lastReport ∧
      (ReadComplete st .success data n true rearmOk).state.hasLastReport
          = st.hasLastReport) ∧
    (data.headD 0 = 1 →
      (ReadComplete st .success data n true rearmOk).state.lastReport
          = data.take 64 ∧
      (ReadComplete st .success data n true rearmOk).state.hasLastReport
          = true) := by
  have hnn : ¬ n < 64 := by omega
  unfold ReadComplete rearmIfPolling ParseInputReport
  simp only [INPUT_REPORT_SIZE, REPORT_ID_INPUT]
  split_ifs <;> simp_all

/-- Witness for C2 (amended) at the post-`Start()` state with a 64-byte
mismatched-id payload. -/
theorem C2_mismatched_id_witness :
    64 ≤ 64 ∧
    ((ReadComplete startedState .success mismatchedReport 64 true
        true).state.reportsReceived = startedState.reportsReceived + 1 ∧
     (ReadComplete startedState .success mismatchedReport 64 true
        true).delivered = true) :=
  ⟨by decide,
   ⟨(C2_mismatched_id startedState mismatchedReport 64 true (by decide)).1,
    (C2_mismatched_id startedState mismatchedReport 64 true
      (by decide)).2.1⟩⟩

/-- C4 counterexample: after `Stop()` has run (polling stopped, pending
read aborted), a late success completion carrying a full matching report
still mutates the state and still reaches the host-report sink — it is
not ignored by any Stopped-state guard. -/
theorem C4_counterexample :
    ¬ ((ReadComplete stoppedState .success matchingReport 64 true
          true).state = stoppedState ∧
       (ReadComplete stoppedState .success matchingReport 64 true
          true).delivered = false) := by
  decide

/-- C4 (amended): after `stop()` (`isPolling = false`) no new read is
ever armed — the polling guard only suppresses re-arming.  A late
aborted/not-responding completion is ignored entirely, but a late error
completion still increments the error counter, and a late success
completion of full length still increments the received counter and is
still delivered to the host-report sink. -/
theorem C4_after_stop (st : DriverState) (status : ReadStatus)
    (data : List Nat) (n : Nat) (mapOk rearmOk : Bool)
    (hp : st.isPolling = false) :
    (ReadComplete st status data n mapOk rearmOk).armedRead = false ∧
    (status = ReadStatus.aborted ∨ status = ReadStatus.notResponding →
      ReadComplete st status data n mapOk rearmOk =
        { state := st, armedRead := false, delivered := false }) ∧
    (status = ReadStatus.otherError →
      (ReadComplete st status data n mapOk
        rearmOk).state.reportErrors = st.reportErrors + 1) ∧
    (status = ReadStatus.success → 64 ≤ n → mapOk = true →
      (ReadComplete st status data n mapOk
        rearmOk).state.reportsReceived = st.reportsReceived + 1 ∧
      (ReadComplete st status data n mapOk rearmOk).delivered = true) := by
  refine ⟨?_, ?_, ?_, ?_⟩
  · cases status <;>
      unfold ReadComplete rearmIfPolling ParseInputReport <;>
      split_ifs <;> simp_all
  · rintro (h | h) <;> subst h <;> rfl
  · intro h
    subst h
    unfold ReadComplete rearmIfPolling
    split_ifs <;> simp_all
  · intro h hn hm
    subst h
    subst hm
    have hnn : ¬ n < 64 := by omega
    unfold ReadComplete rearmIfPolling ParseInputReport
    simp only [INPUT_REPORT_SIZE, REPORT_ID_INPUT]
    split_ifs <;> simp_all

/-- Witness for C4 (amended) at the post-`Stop()` state with a late
success completion of a full matching report. -/
theorem C4_after_stop_witness :
    stoppedState.isPolling = false ∧
    ((ReadComplete stoppedState .success matchingReport 64 true
        true).armedRead = false ∧
     (ReadComplete stoppedState .success matchingReport 64 true
        true).state.reportsReceived = stoppedState.reportsReceived + 1 ∧
     (ReadComplete stoppedState .success matchingReport 64 true
        true).delivered = true) :=
  ⟨by decide,
   ⟨(C4_after_stop stoppedState .success matchingReport 64 true true
      (by decide)).1,
    ((C4_after_stop stoppedState .success matchingReport 64 true true
      (by decide)).2.2.2 rfl (by decide) rfl).1,
    ((C4_after_stop stoppedState .success matchingReport 64 true true
      (by decide)).2.2.2 rfl (by decide) rfl).2⟩⟩

/-- C5: while polling and connected, a success completion shorter than 64
bytes increments the error counter, does not invoke the host-report sink,
leaves the received counter alone, and (the transport accepting the
`AsyncIO` call) arms a new read. -/
theorem C5_short_read (st : DriverState) (data : List Nat) (n : Nat)
    (mapOk : Bool) (hp : st.isPolling = true)
    (hc : st.deviceConnected = true) (hn : n < 64) :
    (ReadComplete st .success data n mapOk true).state.reportErrors
        = st.reportErrors + 1 ∧
    (ReadComplete st .success data n mapOk true).delivered = false ∧
    (ReadComplete st .success data n mapOk true).armedRead = true ∧
    (ReadComplete st .success data n mapOk true).state.reportsReceived
        = st.reportsReceived := by
  have hn' : n < INPUT_REPORT_SIZE := by
    simp only [INPUT_REPORT_SIZE]
    omega
  unfold ReadComplete rearmIfPolling
  simp [hn', hp, hc]

/-- Witness for C5 at the post-`Start()` state with a zero-length success
completion. -/
theorem C5_short_read_witness :
    (startedState.isPolling = true ∧ startedState.deviceConnected = true ∧
      (0 : Nat) < 64) ∧
    ((ReadComplete startedState .success [] 0 true true).state.reportErrors
        = startedState.reportErrors + 1 ∧
     (ReadComplete startedState .success [] 0 true true).delivered
        = false ∧
     (ReadComplete startedState .success [] 0 true true).armedRead
        = true ∧
     (ReadComplete startedState .success [] 0 true
        true).state.reportsReceived = startedState.reportsReceived) :=
  ⟨⟨by decide, by decide, by decide⟩,
   C5_short_read startedState [] 0 true (by decide) (by decide) (by decide)⟩

end Bigben
